import Mathlib

/-!
Verification of the sensor register-protocol layer of the STM32F411E-DISCO
board support crate: the L3GD20 gyroscope driver (gyro.rs) and the LSM303DLHC
e-compass driver (compass.rs), plus the heading-fusion function.

Modelling conventions:
- A register byte travelling on a bus is a natural number below 256 (Fin 256).
- Rust i16 two's-complement reconstruction is made explicit over Int.
- f32 arithmetic is idealised as exact real arithmetic; every constant in the
  drivers (sensitivities, 180, 1000, pi) and every decoded value is well within
  range, and the claims proved about these values are either exact identities
  or carry an explicit tolerance.
- Driver methods that touch the bus are modelled as explicit functions of the
  device-supplied bytes (for reads) or as state transformers over the device
  register file (for configuration), mirroring the Rust method bodies
  statement by statement.
- The SPI primitive is the embassy signature transfer(read, write): one clock
  phase per byte of the equal-length slices, the write slice is transmitted,
  and the device-supplied bytes overwrite the read slice. The gyro driver
  passes its command bytes in the read slot, so the wire only ever carries
  zeros and its buffers are never written; the embedding reflects this. The
  device's interpretation of a transmitted chip-select window follows the
  spec's wire-protocol section, the device silicon being outside the
  repository.
-/

/-- A data byte as it appears in a bus transaction buffer. -/
abbrev Byte := Fin 256

/-- Rust i16 reconstruction from little-endian bytes, as in
    i16 from le bytes of the pair lo, hi: two's complement of hi*256+lo. -/
def i16FromLeBytes (lo hi : Byte) : Int :=
  let w := 256 * hi.val + lo.val
  if w < 32768 then (w : Int) else (w : Int) - 65536

/-- Rust i16 reconstruction from big-endian bytes (high byte first). -/
def i16FromBeBytes (hi lo : Byte) : Int :=
  let w := 256 * hi.val + lo.val
  if w < 32768 then (w : Int) else (w : Int) - 65536

/-- Rust arithmetic shift right by 4 on a signed value: floor division by 16.
    Lean's Int division is Euclidean, which agrees with floor division for the
    positive divisor 16. -/
def asr4 (v : Int) : Int := v / 16

namespace L3GD20

/-- Register addresses of the L3GD20 (gyro.rs, mod regs). -/
def WHO_AM_I : Nat := 0x0F
def CTRL_REG1 : Nat := 0x20
def CTRL_REG2 : Nat := 0x21
def CTRL_REG3 : Nat := 0x22
def CTRL_REG4 : Nat := 0x23
def CTRL_REG5 : Nat := 0x24
def OUT_TEMP : Nat := 0x26
def STATUS_REG : Nat := 0x27
def OUT_X_L : Nat := 0x28

/-- Full scale selection (gyro.rs, enum FullScale). -/
inductive FullScale
  | Dps250
  | Dps500
  | Dps2000
deriving DecidableEq, Repr

/-- The numeric discriminant carried by each FullScale variant. -/
def FullScale.code : FullScale → Nat
  | .Dps250 => 0x00
  | .Dps500 => 0x10
  | .Dps2000 => 0x20

/-- Sensitivity in mdps/digit (gyro.rs, FullScale::sensitivity). -/
noncomputable def FullScale.sensitivity : FullScale → ℝ
  | .Dps250 => 8.75
  | .Dps500 => 17.5
  | .Dps2000 => 70.0

/-- Output data rate and bandwidth selection (gyro.rs, enum DataRate). -/
inductive DataRate
  | Hz95 | Hz95_25 | Hz190 | Hz190_25 | Hz190_50 | Hz190_70
  | Hz380 | Hz380_25 | Hz380_50 | Hz380_100
  | Hz760 | Hz760_35 | Hz760_50 | Hz760_100
deriving DecidableEq, Repr

/-- The numeric discriminant carried by each DataRate variant. -/
def DataRate.code : DataRate → Nat
  | .Hz95 => 0x00
  | .Hz95_25 => 0x10
  | .Hz190 => 0x40
  | .Hz190_25 => 0x50
  | .Hz190_50 => 0x60
  | .Hz190_70 => 0x70
  | .Hz380 => 0x80
  | .Hz380_25 => 0x90
  | .Hz380_50 => 0xA0
  | .Hz380_100 => 0xB0
  | .Hz760 => 0xC0
  | .Hz760_35 => 0xD0
  | .Hz760_50 => 0xE0
  | .Hz760_100 => 0xF0

/-- 3-axis angular rate in degrees per second (gyro.rs, struct AngularRate). -/
structure AngularRate where
  x : ℝ
  y : ℝ
  z : ℝ

/-- One observable event on the SPI bus as produced by the driver: a
    chip-select edge, or one transfer call clocking one phase per
    transmitted byte. -/
inductive SpiEvent
  | csLow
  | transfer (tx : List Nat)
  | csHigh
deriving DecidableEq, Repr

/-- The embassy SPI transfer primitive as the gyro driver invokes it, always
    with equal-length slices: transfer(read, write) clocks one phase per byte,
    puts the write slice on the wire, and overwrites the read slice with the
    device-supplied bytes. Returns (new contents of the read slice, bytes
    transmitted). The driver passes its command bytes in the read slot, so
    they never reach the wire. -/
def spiTransfer (readBuf writeBuf : List Nat) (rx : Nat → Nat) :
    List Nat × List Nat :=
  ((List.range readBuf.length).map rx, writeBuf)

/-- The body of read_register (gyro.rs) under the embassy transfer signature:
    buf starts as the single zero byte; the first transfer passes the command
    byte reg ||| 0x80 in the receive slot (it is overwritten by the device
    byte and dropped) and transmits the write slice, a zero; the second
    transfer passes a zero temporary in the receive slot (overwritten and
    dropped) and transmits buf. buf is never written, so the method returns
    its zero initialiser whatever the device sent. Returns the event trace
    and the returned byte. -/
def read_register (reg : Nat) (rx : Nat → Nat) : List SpiEvent × Nat :=
  let buf : List Nat := [0]
  let t1 := spiTransfer [reg ||| 0x80] [0] rx
  let t2 := spiTransfer [0] buf rx
  ([SpiEvent.csLow, SpiEvent.transfer t1.2, SpiEvent.transfer t2.2, SpiEvent.csHigh],
   buf.getD 0 0)

/-- The body of read_burst (gyro.rs) under the embassy transfer signature:
    the command byte start_reg ||| 0x80 sits in the receive slot of the first
    transfer, whose write slice is a single zero; the second transfer receives
    min(buf.len, 6) device bytes into the internal dummy buffer, which the
    call then drops, and transmits the same-length prefix of buf. The
    caller's buffer is never written. Returns the event trace and the final
    (unchanged) buffer. -/
def read_burst (start_reg : Nat) (buf : List Nat) (rx : Nat → Nat) :
    List SpiEvent × List Nat :=
  let t1 := spiTransfer [start_reg ||| 0x80] [0] rx
  let dummy : List Nat := List.replicate 6 0
  let len := min buf.length 6
  let t2 := spiTransfer (dummy.take len) (buf.take len) rx
  ([SpiEvent.csLow, SpiEvent.transfer t1.2, SpiEvent.transfer t2.2, SpiEvent.csHigh],
   buf)

/-- Rust i16 reconstruction from little-endian bytes held as byte-valued
    naturals (the gyro buffers are lists of naturals below 256). -/
def i16FromLeBytesNat (lo hi : Nat) : Int :=
  let w := 256 * hi + lo
  if w < 32768 then (w : Int) else (w : Int) - 65536

/-- The body of read_angular_rate (gyro.rs) under the embassy transfer
    signature: burst over the local six-byte zero buffer — which the burst
    never writes — then the little-endian decode and sensitivity scaling of
    that untouched buffer. -/
noncomputable def read_angular_rate (scale : FullScale) (rx : Nat → Nat) :
    List SpiEvent × AngularRate :=
  let r := read_burst (OUT_X_L ||| 0x80) (List.replicate 6 0) rx
  let data : Fin 6 → Nat := fun i => r.2.getD i.val 0
  let raw_x := i16FromLeBytesNat (data 0) (data 1)
  let raw_y := i16FromLeBytesNat (data 2) (data 3)
  let raw_z := i16FromLeBytesNat (data 4) (data 5)
  let sensitivity := scale.sensitivity / 1000
  (r.1, ⟨(raw_x : ℝ) * sensitivity, (raw_y : ℝ) * sensitivity, (raw_z : ℝ) * sensitivity⟩)

/-- Driver state: the device register file together with the scale field
    stored in the L3GD20 struct. -/
structure GyroState where
  regs : Nat → Nat
  scale : FullScale

/-- Point update of a register file. -/
def updateReg (f : Nat → Nat) (addr v : Nat) : Nat → Nat :=
  fun a => if a = addr then v else f a

/-- The bytes a sequence of driver events puts on the wire: the concatenation
    of the transmitted slices of its transfers. -/
def frameOf (events : List SpiEvent) : List Nat :=
  events.foldl (fun acc e =>
    match e with
    | SpiEvent.transfer tx => acc ++ tx
    | _ => acc) []

/-- Modelled from the spec: the write machinery of the SPI-attached device's
    wire protocol (spec section 6) — the device silicon is outside this
    repository. Each transmitted data byte is written at the current register
    address, which advances only when auto-increment is enabled. -/
def deviceWriteRun : Nat → Bool → (Nat → Nat) → List Nat → (Nat → Nat)
  | _, _, regs, [] => regs
  | addr, inc, regs, d :: rest =>
      deviceWriteRun (if inc then addr + 1 else addr) inc (updateReg regs addr d) rest

/-- Modelled from the spec: how the device interprets the bytes transmitted
    during one chip-select window (spec section 6): the first byte is the
    command — bit 7 set selects a read, which changes no register; bit 7
    clear selects a write whose register address is the low six bits, with
    bit 6 enabling address auto-increment — and every further byte is data. -/
def deviceFrame (regs : Nat → Nat) : List Nat → (Nat → Nat)
  | [] => regs
  | cmd :: data =>
      if cmd &&& 0x80 = 0 then
        deviceWriteRun (cmd &&& 0x3F) (cmd &&& 0x40 == 0x40) regs data
      else regs

/-- The body of write_register (gyro.rs) under the embassy transfer
    signature: the intended command pair [reg &&& 0x7F, value] occupies the
    receive slot and is overwritten; the wire carries the write slice, two
    zero bytes. Returns the event trace. -/
def write_register (reg v : Nat) (rx : Nat → Nat) : List SpiEvent :=
  let t := spiTransfer [reg &&& 0x7F, v] [0, 0] rx
  [SpiEvent.csLow, SpiEvent.transfer t.2, SpiEvent.csHigh]

/-- The body of init (gyro.rs) under the embassy transfer signature: the
    WHO_AM_I read and the five control-register writes each put a chip-select
    window of zero bytes on the wire, which the device interprets as a write
    of 0x00 to the reserved register 0x00; no intended control value ever
    reaches the device. -/
def gyro_init (st : GyroState) (rx : Nat → Nat) : GyroState :=
  let st := { st with regs := deviceFrame st.regs (frameOf (read_register WHO_AM_I rx).1) }
  let st := { st with regs := deviceFrame st.regs (frameOf (write_register CTRL_REG1 0x0F rx)) }
  let st := { st with regs := deviceFrame st.regs (frameOf (write_register CTRL_REG2 0x00 rx)) }
  let st := { st with regs := deviceFrame st.regs (frameOf (write_register CTRL_REG3 0x00 rx)) }
  let st := { st with regs := deviceFrame st.regs (frameOf (write_register CTRL_REG4 0x00 rx)) }
  { st with regs := deviceFrame st.regs (frameOf (write_register CTRL_REG5 0x00 rx)) }

/-- The body of new (gyro.rs): the struct is built with scale Dps250 and init
    runs before the constructor returns. regs0 is the device register file at
    power-up; rx the device-supplied bytes per phase. -/
def gyro_new (regs0 : Nat → Nat) (rx : Nat → Nat) : GyroState :=
  gyro_init { regs := regs0, scale := FullScale.Dps250 } rx

/-- The body of set_scale (gyro.rs) under the embassy transfer signature: the
    stored scale is updated; the read-modify-write reads read_register's
    result — the untouched zero buffer byte, not CTRL_REG4 — computes the
    masked-and-ORed byte, and hands it to write_register, whose wire frame is
    two zero bytes regardless; the device register file only ever sees writes
    to the reserved address 0x00. -/
def set_scale (st : GyroState) (sc : FullScale) (rx : Nat → Nat) : GyroState :=
  let st := { st with scale := sc }
  let rr := read_register CTRL_REG4 rx
  let st := { st with regs := deviceFrame st.regs (frameOf rr.1) }
  let ctrl4 := rr.2
  let ctrl4 := (ctrl4 &&& 0xCF) ||| sc.code
  { st with regs := deviceFrame st.regs (frameOf (write_register CTRL_REG4 ctrl4 rx)) }

/-- The body of set_data_rate (gyro.rs) under the embassy transfer signature:
    same shape as set_scale, targeting CTRL_REG1 with mask 0x0F. -/
def set_data_rate (st : GyroState) (r : DataRate) (rx : Nat → Nat) : GyroState :=
  let rr := read_register CTRL_REG1 rx
  let st := { st with regs := deviceFrame st.regs (frameOf rr.1) }
  let ctrl1 := rr.2
  let ctrl1 := (ctrl1 &&& 0x0F) ||| r.code
  { st with regs := deviceFrame st.regs (frameOf (write_register CTRL_REG1 ctrl1 rx)) }

/-- The device register file at power-up: the datasheet reset value of
    CTRL_REG1 is 0x07 (power-down bit clear, all axes enabled) and the other
    control registers reset to 0x00, so the device starts powered down. -/
def l3gd20ResetRegs : Nat → Nat :=
  fun a => if a = CTRL_REG1 then 0x07 else 0x00


/-- Decode the range-select bits (bits 4 and 5) of CTRL_REG4 back to the
    FullScale variant they select, per the FullScale discriminants. -/
def scaleOfBits (b : Nat) : Option FullScale :=
  if b = 0x00 then some FullScale.Dps250
  else if b = 0x10 then some FullScale.Dps500
  else if b = 0x20 then some FullScale.Dps2000
  else none

/-- The device is powered down when the PD bit (bit 3 of CTRL_REG1) is clear. -/
def poweredDown (st : GyroState) : Prop :=
  Nat.testBit (st.regs CTRL_REG1) 3 = false

/-- The sensitivity used for conversion agrees with the range-select bits of
    the device's CTRL_REG4: decoding bits 4 and 5 of the register recovers
    exactly the FullScale variant whose sensitivity read_angular_rate uses. -/
def scaleRegisterConsistent (st : GyroState) : Prop :=
  scaleOfBits (st.regs CTRL_REG4 &&& 0x30) = some st.scale

end L3GD20

namespace LSM303DLHC

/-- Accelerometer register addresses (compass.rs, mod accel_regs). -/
def CTRL_REG1_A : Nat := 0x20
def CTRL_REG2_A : Nat := 0x21
def CTRL_REG3_A : Nat := 0x22
def CTRL_REG4_A : Nat := 0x23
def CTRL_REG5_A : Nat := 0x24
def STATUS_REG_A : Nat := 0x27
def OUT_X_L_A : Nat := 0x28

/-- Magnetometer register addresses (compass.rs, mod mag_regs). -/
def CRA_REG_M : Nat := 0x00
def CRB_REG_M : Nat := 0x01
def MR_REG_M : Nat := 0x02
def OUT_X_H_M : Nat := 0x03
def SR_REG_M : Nat := 0x09
def TEMP_OUT_H_M : Nat := 0x31
def TEMP_OUT_L_M : Nat := 0x32

/-- Accelerometer full scale selection (compass.rs, enum AccelScale). -/
inductive AccelScale
  | G2
  | G4
  | G8
  | G16
deriving DecidableEq, Repr

/-- The numeric discriminant carried by each AccelScale variant. -/
def AccelScale.code : AccelScale → Nat
  | .G2 => 0x00
  | .G4 => 0x10
  | .G8 => 0x20
  | .G16 => 0x30

/-- Sensitivity in mg/LSB (compass.rs, AccelScale::sensitivity). -/
noncomputable def AccelScale.sensitivity : AccelScale → ℝ
  | .G2 => 1.0
  | .G4 => 2.0
  | .G8 => 4.0
  | .G16 => 12.0

/-- Magnetometer gain selection (compass.rs, enum MagGain). -/
inductive MagGain
  | Gauss1_3
  | Gauss1_9
  | Gauss2_5
  | Gauss4_0
  | Gauss4_7
  | Gauss5_6
  | Gauss8_1
deriving DecidableEq, Repr

/-- The numeric discriminant carried by each MagGain variant. -/
def MagGain.code : MagGain → Nat
  | .Gauss1_3 => 0x20
  | .Gauss1_9 => 0x40
  | .Gauss2_5 => 0x60
  | .Gauss4_0 => 0x80
  | .Gauss4_7 => 0xA0
  | .Gauss5_6 => 0xC0
  | .Gauss8_1 => 0xE0

/-- X/Y-axis sensitivity in LSB/gauss (compass.rs, MagGain::sensitivity_xy). -/
noncomputable def MagGain.sensitivity_xy : MagGain → ℝ
  | .Gauss1_3 => 1100.0
  | .Gauss1_9 => 855.0
  | .Gauss2_5 => 670.0
  | .Gauss4_0 => 450.0
  | .Gauss4_7 => 400.0
  | .Gauss5_6 => 330.0
  | .Gauss8_1 => 230.0

/-- Z-axis sensitivity in LSB/gauss (compass.rs, MagGain::sensitivity_z). -/
noncomputable def MagGain.sensitivity_z : MagGain → ℝ
  | .Gauss1_3 => 980.0
  | .Gauss1_9 => 760.0
  | .Gauss2_5 => 600.0
  | .Gauss4_0 => 400.0
  | .Gauss4_7 => 355.0
  | .Gauss5_6 => 295.0
  | .Gauss8_1 => 205.0

/-- Accelerometer data rate (compass.rs, enum AccelDataRate). -/
inductive AccelDataRate
  | PowerDown | Hz1 | Hz10 | Hz25 | Hz50 | Hz100 | Hz200 | Hz400
  | Hz1620LP | Hz1344
deriving DecidableEq, Repr

/-- The numeric discriminant carried by each AccelDataRate variant. -/
def AccelDataRate.code : AccelDataRate → Nat
  | .PowerDown => 0x00
  | .Hz1 => 0x10
  | .Hz10 => 0x20
  | .Hz25 => 0x30
  | .Hz50 => 0x40
  | .Hz100 => 0x50
  | .Hz200 => 0x60
  | .Hz400 => 0x70
  | .Hz1620LP => 0x80
  | .Hz1344 => 0x90

/-- Magnetometer data rate (compass.rs, enum MagDataRate). -/
inductive MagDataRate
  | Hz0_75 | Hz1_5 | Hz3 | Hz7_5 | Hz15 | Hz30 | Hz75 | Hz220
deriving DecidableEq, Repr

/-- The numeric discriminant carried by each MagDataRate variant. -/
def MagDataRate.code : MagDataRate → Nat
  | .Hz0_75 => 0x00
  | .Hz1_5 => 0x04
  | .Hz3 => 0x08
  | .Hz7_5 => 0x0C
  | .Hz15 => 0x10
  | .Hz30 => 0x14
  | .Hz75 => 0x18
  | .Hz220 => 0x1C

/-- 3-axis acceleration in g (compass.rs, struct Acceleration). -/
structure Acceleration where
  x : ℝ
  y : ℝ
  z : ℝ

/-- 3-axis magnetic field in gauss (compass.rs, struct MagneticField). -/
structure MagneticField where
  x : ℝ
  y : ℝ
  z : ℝ

/-- The body of read_acceleration (compass.rs) applied to the 6 bytes that the
    accelerometer burst read starting at OUT_X_L_A deposited in the buffer:
    little-endian i16 per axis, arithmetic shift right by 4, then scale by
    sensitivity over 1000. -/
noncomputable def read_acceleration (accel_scale : AccelScale)
    (data : Fin 6 → Byte) : Acceleration :=
  let raw_x := asr4 (i16FromLeBytes (data 0) (data 1))
  let raw_y := asr4 (i16FromLeBytes (data 2) (data 3))
  let raw_z := asr4 (i16FromLeBytes (data 4) (data 5))
  let sensitivity := accel_scale.sensitivity / 1000
  ⟨(raw_x : ℝ) * sensitivity, (raw_y : ℝ) * sensitivity, (raw_z : ℝ) * sensitivity⟩

/-- A concrete accelerometer burst buffer whose X-axis pair is the
    little-endian 16-bit value 0x00F0 and whose other bytes are zero. -/
def accelExampleData : Fin 6 → Byte :=
  fun i => if i.val = 0 then (240 : Byte) else 0

/-- The body of read_magnetic_field (compass.rs) applied to the 6 bytes that
    the magnetometer burst read starting at OUT_X_H_M deposited in the buffer.
    The physical register order is X, Z, Y, so the middle byte pair is the Z
    axis; each pair is big-endian (high byte first). -/
noncomputable def read_magnetic_field (mag_gain : MagGain)
    (data : Fin 6 → Byte) : MagneticField :=
  let raw_x := i16FromBeBytes (data 0) (data 1)
  let raw_z := i16FromBeBytes (data 2) (data 3)
  let raw_y := i16FromBeBytes (data 4) (data 5)
  let sens_xy := mag_gain.sensitivity_xy
  let sens_z := mag_gain.sensitivity_z
  ⟨(raw_x : ℝ) / sens_xy, (raw_y : ℝ) / sens_xy, (raw_z : ℝ) / sens_z⟩

/-- The body of the compass read_temperature (compass.rs): read TEMP_OUT_H_M
    and TEMP_OUT_L_M from the magnetometer register file, combine big-endian
    with the high register first, arithmetic shift right by 4. -/
def read_temperature (mregs : Nat → Byte) : Int :=
  let high := mregs TEMP_OUT_H_M
  let low := mregs TEMP_OUT_L_M
  asr4 (i16FromBeBytes high low)

/-- The body of calculate_heading (compass.rs): atan2 of y over x, converted
    to degrees, normalised to the interval from 0 to 360 by adding 360 when
    negative. atan2 y x is the argument of the complex number x + i y, in the
    half-open interval from minus pi exclusive to pi inclusive, matching the
    micromath convention. -/
noncomputable def atan2 (y x : ℝ) : ℝ := Complex.arg ⟨x, y⟩

/-- Heading in degrees computed from a magnetic field reading. -/
noncomputable def calculate_heading (mag : MagneticField) : ℝ :=
  let heading := atan2 mag.y mag.x
  let heading_deg := heading * 180 / Real.pi
  if heading_deg < 0 then heading_deg + 360 else heading_deg

/-- Driver state: the two independent register files of the accelerometer and
    magnetometer sub-devices, plus the scale and gain fields stored in the
    LSM303DLHC struct. -/
structure CompassState where
  aregs : Nat → Nat
  mregs : Nat → Nat
  accel_scale : AccelScale
  mag_gain : MagGain

/-- write_accel_register (compass.rs) as a state transformer. -/
def accelWrite (st : CompassState) (reg v : Nat) : CompassState :=
  { st with aregs := fun a => if a = reg then v else st.aregs a }

/-- write_mag_register (compass.rs) as a state transformer. -/
def magWrite (st : CompassState) (reg v : Nat) : CompassState :=
  { st with mregs := fun a => if a = reg then v else st.mregs a }

/-- The body of init (compass.rs): the fixed write sequence to the five
    accelerometer control registers and the three magnetometer control
    registers. -/
def compass_init (st : CompassState) : CompassState :=
  let st := accelWrite st CTRL_REG1_A 0x57
  let st := accelWrite st CTRL_REG2_A 0x00
  let st := accelWrite st CTRL_REG3_A 0x00
  let st := accelWrite st CTRL_REG4_A 0x08
  let st := accelWrite st CTRL_REG5_A 0x00
  let st := magWrite st CRA_REG_M 0x90
  let st := magWrite st CRB_REG_M 0x20
  let st := magWrite st MR_REG_M 0x00
  st

/-- The body of new (compass.rs): the struct is built with scale G2 and gain
    Gauss1_3, and init runs before the constructor returns. -/
def compass_new (aregs0 mregs0 : Nat → Nat) : CompassState :=
  compass_init
    { aregs := aregs0, mregs := mregs0,
      accel_scale := AccelScale.G2, mag_gain := MagGain.Gauss1_3 }

/-- The body of set_accel_scale (compass.rs): store the new scale, then
    read-modify-write CTRL_REG4_A with mask 0xCF, ORing in the discriminant. -/
def set_accel_scale (st : CompassState) (sc : AccelScale) : CompassState :=
  let st := { st with accel_scale := sc }
  let ctrl4 := st.aregs CTRL_REG4_A
  let ctrl4 := (ctrl4 &&& 0xCF) ||| sc.code
  accelWrite st CTRL_REG4_A ctrl4

/-- The body of set_accel_data_rate (compass.rs): read-modify-write
    CTRL_REG1_A with mask 0x0F. -/
def set_accel_data_rate (st : CompassState) (r : AccelDataRate) : CompassState :=
  let ctrl1 := st.aregs CTRL_REG1_A
  let ctrl1 := (ctrl1 &&& 0x0F) ||| r.code
  accelWrite st CTRL_REG1_A ctrl1

/-- The body of set_mag_gain (compass.rs): store the new gain and overwrite
    the whole CRB_REG_M register with its discriminant. -/
def set_mag_gain (st : CompassState) (g : MagGain) : CompassState :=
  let st := { st with mag_gain := g }
  magWrite st CRB_REG_M g.code

/-- The body of set_mag_data_rate (compass.rs): read-modify-write CRA_REG_M
    with mask 0xE3. -/
def set_mag_data_rate (st : CompassState) (r : MagDataRate) : CompassState :=
  let cra := st.mregs CRA_REG_M
  let cra := (cra &&& 0xE3) ||| r.code
  magWrite st CRA_REG_M cra

/-- The public operations of the compass driver after construction; the
    reading and polling methods perform bus reads only. -/
inductive CompassOp
  | setAccelScale (sc : AccelScale)
  | setAccelDataRate (r : AccelDataRate)
  | setMagGain (g : MagGain)
  | setMagDataRate (r : MagDataRate)
  | accelDataReady
  | magDataReady
  | readAccel
  | readMag
  | readTemp

/-- One driver call, as a state transformer. -/
def compassStep (st : CompassState) : CompassOp → CompassState
  | .setAccelScale sc => set_accel_scale st sc
  | .setAccelDataRate r => set_accel_data_rate st r
  | .setMagGain g => set_mag_gain st g
  | .setMagDataRate r => set_mag_data_rate st r
  | .accelDataReady => st
  | .magDataReady => st
  | .readAccel => st
  | .readMag => st
  | .readTemp => st

/-- A sequence of driver calls. -/
def compassRun (st : CompassState) (ops : List CompassOp) : CompassState :=
  ops.foldl compassStep st

/-- Decode the range-select bits (bits 4 and 5) of CTRL_REG4_A back to the
    AccelScale variant they select. -/
def accelScaleOfBits (b : Nat) : Option AccelScale :=
  if b = 0x00 then some AccelScale.G2
  else if b = 0x10 then some AccelScale.G4
  else if b = 0x20 then some AccelScale.G8
  else if b = 0x30 then some AccelScale.G16
  else none

/-- Decode a full CRB_REG_M byte back to the MagGain variant that wrote it. -/
def magGainOfByte (b : Nat) : Option MagGain :=
  if b = 0x20 then some MagGain.Gauss1_3
  else if b = 0x40 then some MagGain.Gauss1_9
  else if b = 0x60 then some MagGain.Gauss2_5
  else if b = 0x80 then some MagGain.Gauss4_0
  else if b = 0xA0 then some MagGain.Gauss4_7
  else if b = 0xC0 then some MagGain.Gauss5_6
  else if b = 0xE0 then some MagGain.Gauss8_1
  else none

/-- The sensitivity used by read_acceleration agrees with the range-select
    bits of the accelerometer's CTRL_REG4_A. -/
def accelScaleRegisterConsistent (st : CompassState) : Prop :=
  accelScaleOfBits (st.aregs CTRL_REG4_A &&& 0x30) = some st.accel_scale

/-- The pair of sensitivities used by read_magnetic_field agrees with the
    byte most recently written to the magnetometer's gain register CRB_REG_M. -/
def magGainRegisterConsistent (st : CompassState) : Prop :=
  magGainOfByte (st.mregs CRB_REG_M) = some st.mag_gain

end LSM303DLHC

/-- The spec's error taxonomy for a failed bus transfer: no acknowledgment,
    timeout, or framing error. -/
inductive BusError
  | nack
  | timeout
  | framing
deriving DecidableEq, Repr

/-- The body of read_accel_register (compass.rs) as a function of the outcome
    of the underlying I2C write_read transaction. The Rust code calls .ok() on
    the result: on success the one-byte buffer holds the register value, on
    failure the error is discarded and the buffer keeps its zero initialiser,
    which is what the method returns. -/
def read_accel_register_outcome (bus : Except BusError Byte) : Byte :=
  match bus with
  | Except.ok b => b
  | Except.error _ => 0

/-- The body of the gyro read_register (gyro.rs) as a function of the outcome
    of the SPI transaction. The Rust code binds each transfer result to an
    underscore, so on failure the error is discarded; and because the buffer
    occupies the transmit slot of the embassy transfer it is never written
    even on success: either way the method returns the zero-initialised
    buffer byte. -/
def gyro_read_register_outcome (bus : Except BusError Byte) : Byte :=
  match bus with
  | Except.ok _ => 0
  | Except.error _ => 0


/-- C1: the drivers absorb bus failures instead of surfacing them. A failed
    transfer in the compass read_accel_register (error discarded by calling ok
    on the Result) or in the gyro read_register (Result bound to underscore)
    makes the method return the zero-initialised buffer byte, which is
    indistinguishable from a genuine register value of zero. This exhibits the
    behaviour at a concrete failing input, contradicting the claim that a
    BusTransactionError is surfaced as a distinct outcome. -/
theorem c1_bus_error_absorbed_into_zero :
    read_accel_register_outcome (Except.error BusError.nack) = 0
  ∧ read_accel_register_outcome (Except.error BusError.nack)
      = read_accel_register_outcome (Except.ok 0)
  ∧ gyro_read_register_outcome (Except.error BusError.timeout) = 0
  ∧ gyro_read_register_outcome (Except.error BusError.timeout)
      = gyro_read_register_outcome (Except.ok 0) :=
  ⟨rfl, rfl, rfl, rfl⟩

/-- C2: read_magnetic_field decodes the 6 burst bytes in physical register
    order X, Z, Y: the x field comes from the first big-endian byte pair, the
    z field from the second, the y field from the third; x and y are divided
    by the gain's XY sensitivity and z by the gain's separate Z sensitivity.
    The final conjunct pins down the big-endian signed 16-bit reconstruction:
    the decoded integer lies in the signed 16-bit range and is congruent to
    high times 256 plus low modulo 65536. -/
theorem c2_mag_decode_xzy_order (data : Fin 6 → Byte) (g : LSM303DLHC.MagGain) :
    (LSM303DLHC.read_magnetic_field g data).x
      = (i16FromBeBytes (data 0) (data 1) : ℝ) / g.sensitivity_xy
  ∧ (LSM303DLHC.read_magnetic_field g data).z
      = (i16FromBeBytes (data 2) (data 3) : ℝ) / g.sensitivity_z
  ∧ (LSM303DLHC.read_magnetic_field g data).y
      = (i16FromBeBytes (data 4) (data 5) : ℝ) / g.sensitivity_xy
  ∧ (∀ hi lo : Byte,
      -32768 ≤ i16FromBeBytes hi lo ∧ i16FromBeBytes hi lo < 32768
      ∧ i16FromBeBytes hi lo % 65536 = ((256 * hi.val + lo.val : Nat) : Int)) := by
  refine ⟨rfl, rfl, rfl, fun hi lo => ?_⟩
  have h1 := hi.isLt
  have h2 := lo.isLt
  simp only [i16FromBeBytes]
  split <;> omega

/-- C9: the compass read_temperature combines the high and low temperature
    registers big-endian (high first) and arithmetic-shifts right by 4. The
    result r is exactly the signed 12-bit value left-justified in the 16-bit
    field: 16 r ≤ v < 16 r + 16 for the decoded 16-bit integer v, r lies in
    the signed 12-bit range, and r is negative exactly when v is. -/
theorem c9_temperature_decode (mregs : Nat → Byte) :
    LSM303DLHC.read_temperature mregs
      = asr4 (i16FromBeBytes (mregs LSM303DLHC.TEMP_OUT_H_M)
          (mregs LSM303DLHC.TEMP_OUT_L_M))
  ∧ 16 * LSM303DLHC.read_temperature mregs
      ≤ i16FromBeBytes (mregs LSM303DLHC.TEMP_OUT_H_M) (mregs LSM303DLHC.TEMP_OUT_L_M)
  ∧ i16FromBeBytes (mregs LSM303DLHC.TEMP_OUT_H_M) (mregs LSM303DLHC.TEMP_OUT_L_M)
      < 16 * LSM303DLHC.read_temperature mregs + 16
  ∧ -2048 ≤ LSM303DLHC.read_temperature mregs
  ∧ LSM303DLHC.read_temperature mregs ≤ 2047
  ∧ (LSM303DLHC.read_temperature mregs < 0
      ↔ i16FromBeBytes (mregs LSM303DLHC.TEMP_OUT_H_M)
          (mregs LSM303DLHC.TEMP_OUT_L_M) < 0) := by
  have h1 := (mregs LSM303DLHC.TEMP_OUT_H_M).isLt
  have h2 := (mregs LSM303DLHC.TEMP_OUT_L_M).isLt
  refine ⟨rfl, ?_⟩
  simp only [LSM303DLHC.read_temperature, i16FromBeBytes, asr4]
  split <;> omega

/-- C5: read_acceleration decodes each axis from its little-endian byte pair,
    arithmetic-shifts right by 4, and multiplies by the scale's sensitivity
    divided by 1000. The shift is exactly the floor quotient by 16 (the
    defining property of a 12-bit left-justified field), and on the concrete
    buffer whose X pair is 0x00F0 the raw value is 15 and the decoded
    acceleration at the 2g scale (1 mg per LSB) is 0.015 g. -/
theorem c5_accel_decode_shift4 (data : Fin 6 → Byte) (sc : LSM303DLHC.AccelScale) :
    (LSM303DLHC.read_acceleration sc data).x
      = (asr4 (i16FromLeBytes (data 0) (data 1)) : ℝ) * (sc.sensitivity / 1000)
  ∧ (LSM303DLHC.read_acceleration sc data).y
      = (asr4 (i16FromLeBytes (data 2) (data 3)) : ℝ) * (sc.sensitivity / 1000)
  ∧ (LSM303DLHC.read_acceleration sc data).z
      = (asr4 (i16FromLeBytes (data 4) (data 5)) : ℝ) * (sc.sensitivity / 1000)
  ∧ (∀ v : Int, 16 * asr4 v ≤ v ∧ v < 16 * asr4 v + 16)
  ∧ i16FromLeBytes (240 : Byte) (0 : Byte) = 240
  ∧ asr4 240 = 15
  ∧ (LSM303DLHC.read_acceleration LSM303DLHC.AccelScale.G2 LSM303DLHC.accelExampleData).x
      = 15 / 1000 := by
  refine ⟨rfl, rfl, rfl, ?_, by decide, by decide, ?_⟩
  · intro v
    simp only [asr4]
    omega
  · show (asr4 (i16FromLeBytes (LSM303DLHC.accelExampleData 0)
        (LSM303DLHC.accelExampleData 1)) : ℝ)
        * (LSM303DLHC.AccelScale.sensitivity LSM303DLHC.AccelScale.G2 / 1000) = 15 / 1000
    have h : asr4 (i16FromLeBytes (LSM303DLHC.accelExampleData 0)
        (LSM303DLHC.accelExampleData 1)) = 15 := by decide
    rw [h]
    show (15 : ℝ) * (1.0 / 1000) = 15 / 1000
    norm_num

section ScaleInvariant

/-- Read-modify-write with mask 0xCF followed by OR of a value c whose bits
    lie in positions 4 and 5 leaves exactly c in positions 4 and 5. -/
lemma rmw_bits45 (x c : Nat) (hc : c &&& 0x30 = c) :
    ((x &&& 0xCF) ||| c) &&& 0x30 = c := by
  rw [Nat.and_distrib_right, Nat.and_assoc,
      (by decide : (0xCF &&& 0x30 : Nat) = 0), Nat.and_zero, Nat.zero_or, hc]

/-- Every compass driver operation preserves agreement between the stored
    accelerometer scale and the range bits of CTRL_REG4_A. -/
lemma compass_accelInv_step (st : LSM303DLHC.CompassState) (op : LSM303DLHC.CompassOp)
    (h : LSM303DLHC.accelScaleRegisterConsistent st) :
    LSM303DLHC.accelScaleRegisterConsistent (LSM303DLHC.compassStep st op) := by
  cases op with
  | setAccelScale sc =>
      have hcc : sc.code &&& 0x30 = sc.code := by cases sc <;> decide
      simp [LSM303DLHC.accelScaleRegisterConsistent, LSM303DLHC.compassStep,
        LSM303DLHC.set_accel_scale, LSM303DLHC.accelWrite]
      rw [rmw_bits45 (st.aregs LSM303DLHC.CTRL_REG4_A) sc.code hcc]
      cases sc <;> rfl
  | setAccelDataRate r =>
      simp only [LSM303DLHC.accelScaleRegisterConsistent, LSM303DLHC.compassStep,
        LSM303DLHC.set_accel_data_rate, LSM303DLHC.accelWrite,
        LSM303DLHC.CTRL_REG4_A, LSM303DLHC.CTRL_REG1_A] at h ⊢
      norm_num
      exact h
  | setMagGain g => exact h
  | setMagDataRate r => exact h
  | accelDataReady => exact h
  | magDataReady => exact h
  | readAccel => exact h
  | readMag => exact h
  | readTemp => exact h

/-- Every compass driver operation preserves agreement between the stored
    magnetometer gain and the CRB_REG_M register byte. -/
lemma compass_magInv_step (st : LSM303DLHC.CompassState) (op : LSM303DLHC.CompassOp)
    (h : LSM303DLHC.magGainRegisterConsistent st) :
    LSM303DLHC.magGainRegisterConsistent (LSM303DLHC.compassStep st op) := by
  cases op with
  | setMagGain g =>
      simp only [LSM303DLHC.magGainRegisterConsistent, LSM303DLHC.compassStep,
        LSM303DLHC.set_mag_gain, LSM303DLHC.magWrite, if_pos rfl]
      cases g <;> rfl
  | setMagDataRate r =>
      simp only [LSM303DLHC.magGainRegisterConsistent, LSM303DLHC.compassStep,
        LSM303DLHC.set_mag_data_rate, LSM303DLHC.magWrite,
        LSM303DLHC.CRB_REG_M, LSM303DLHC.CRA_REG_M] at h ⊢
      norm_num
      exact h
  | setAccelScale sc => exact h
  | setAccelDataRate r => exact h
  | accelDataReady => exact h
  | magDataReady => exact h
  | readAccel => exact h
  | readMag => exact h
  | readTemp => exact h

/-- Both compass agreements hold after construction and any call sequence. -/
lemma compass_inv_run (st : LSM303DLHC.CompassState) (ops : List LSM303DLHC.CompassOp)
    (ha : LSM303DLHC.accelScaleRegisterConsistent st)
    (hm : LSM303DLHC.magGainRegisterConsistent st) :
    LSM303DLHC.accelScaleRegisterConsistent (LSM303DLHC.compassRun st ops)
    ∧ LSM303DLHC.magGainRegisterConsistent (LSM303DLHC.compassRun st ops) := by
  induction ops generalizing st with
  | nil => exact ⟨ha, hm⟩
  | cons op rest ih =>
      exact ih _ (compass_accelInv_step st op ha) (compass_magInv_step st op hm)

/-- The compass constructor establishes both agreements. -/
lemma compass_inv_new (aregs0 mregs0 : Nat → Nat) :
    LSM303DLHC.accelScaleRegisterConsistent (LSM303DLHC.compass_new aregs0 mregs0)
    ∧ LSM303DLHC.magGainRegisterConsistent (LSM303DLHC.compass_new aregs0 mregs0) := by
  constructor
  · simp only [LSM303DLHC.accelScaleRegisterConsistent, LSM303DLHC.compass_new,
      LSM303DLHC.compass_init, LSM303DLHC.accelWrite, LSM303DLHC.magWrite,
      LSM303DLHC.CTRL_REG1_A, LSM303DLHC.CTRL_REG2_A, LSM303DLHC.CTRL_REG3_A,
      LSM303DLHC.CTRL_REG4_A, LSM303DLHC.CTRL_REG5_A, LSM303DLHC.CRA_REG_M,
      LSM303DLHC.CRB_REG_M, LSM303DLHC.MR_REG_M]
    norm_num
    rfl
  · simp only [LSM303DLHC.magGainRegisterConsistent, LSM303DLHC.compass_new,
      LSM303DLHC.compass_init, LSM303DLHC.accelWrite, LSM303DLHC.magWrite,
      LSM303DLHC.CRA_REG_M, LSM303DLHC.CRB_REG_M, LSM303DLHC.MR_REG_M]
    norm_num
    rfl

end ScaleInvariant

/-- C4: calculate_heading is atan2 of y over x converted to degrees,
    normalised into the interval from 0 inclusive to 360 exclusive by adding
    360 exactly when negative; on the four cardinal inputs it returns 0, 90,
    180 and 270 degrees, well within the half-degree tolerance. -/
theorem c4_heading_atan2_normalized :
    (∀ m : LSM303DLHC.MagneticField,
      LSM303DLHC.calculate_heading m
        = (if LSM303DLHC.atan2 m.y m.x * 180 / Real.pi < 0
            then LSM303DLHC.atan2 m.y m.x * 180 / Real.pi + 360
            else LSM303DLHC.atan2 m.y m.x * 180 / Real.pi))
  ∧ (∀ m : LSM303DLHC.MagneticField,
      0 ≤ LSM303DLHC.calculate_heading m ∧ LSM303DLHC.calculate_heading m < 360)
  ∧ |LSM303DLHC.calculate_heading ⟨1, 0, 0⟩ - 0| < 0.5
  ∧ |LSM303DLHC.calculate_heading ⟨0, 1, 0⟩ - 90| < 0.5
  ∧ |LSM303DLHC.calculate_heading ⟨-1, 0, 0⟩ - 180| < 0.5
  ∧ |LSM303DLHC.calculate_heading ⟨0, -1, 0⟩ - 270| < 0.5 := by
  have hπ : (0 : ℝ) < Real.pi := Real.pi_pos
  have hπne : (Real.pi : ℝ) ≠ 0 := ne_of_gt hπ
  refine ⟨fun m => rfl, ?_, ?_, ?_, ?_, ?_⟩
  · intro m
    have h1 : LSM303DLHC.atan2 m.y m.x ≤ Real.pi := Complex.arg_le_pi _
    have h2 : -Real.pi < LSM303DLHC.atan2 m.y m.x := Complex.neg_pi_lt_arg _
    have hd1 : LSM303DLHC.atan2 m.y m.x * 180 / Real.pi ≤ 180 := by
      rw [div_le_iff₀ hπ]
      nlinarith
    have hd2 : -180 < LSM303DLHC.atan2 m.y m.x * 180 / Real.pi := by
      rw [lt_div_iff₀ hπ]
      nlinarith
    simp only [LSM303DLHC.calculate_heading]
    split_ifs with h
    · constructor <;> linarith
    · constructor <;> linarith
  · have harg : LSM303DLHC.atan2 (0 : ℝ) 1 = 0 := by
      show Complex.arg ⟨1, 0⟩ = 0
      rw [show (⟨1, 0⟩ : ℂ) = 1 from by apply Complex.ext <;> simp]
      exact Complex.arg_one
    have hval : LSM303DLHC.calculate_heading ⟨1, 0, 0⟩ = 0 := by
      simp only [LSM303DLHC.calculate_heading]
      norm_num [harg]
    rw [hval]
    norm_num
  · have harg : LSM303DLHC.atan2 (1 : ℝ) 0 = Real.pi / 2 := by
      show Complex.arg ⟨0, 1⟩ = Real.pi / 2
      rw [show (⟨0, 1⟩ : ℂ) = Complex.I from by apply Complex.ext <;> simp]
      exact Complex.arg_I
    have hdeg : Real.pi / 2 * 180 / Real.pi = 90 := by
      rw [div_eq_iff hπne]
      ring
    have hval : LSM303DLHC.calculate_heading ⟨0, 1, 0⟩ = 90 := by
      simp only [LSM303DLHC.calculate_heading]
      rw [harg, hdeg]
      norm_num
    rw [hval]
    norm_num
  · have harg : LSM303DLHC.atan2 (0 : ℝ) (-1) = Real.pi := by
      show Complex.arg ⟨-1, 0⟩ = Real.pi
      rw [show (⟨-1, 0⟩ : ℂ) = -1 from by apply Complex.ext <;> simp]
      exact Complex.arg_neg_one
    have hdeg : Real.pi * 180 / Real.pi = 180 := by
      rw [div_eq_iff hπne]
      ring
    have hval : LSM303DLHC.calculate_heading ⟨-1, 0, 0⟩ = 180 := by
      simp only [LSM303DLHC.calculate_heading]
      rw [harg, hdeg]
      norm_num
    rw [hval]
    norm_num
  · have harg : LSM303DLHC.atan2 (-1 : ℝ) 0 = -(Real.pi / 2) := by
      show Complex.arg ⟨0, -1⟩ = -(Real.pi / 2)
      rw [show (⟨0, -1⟩ : ℂ) = -Complex.I from by apply Complex.ext <;> simp]
      exact Complex.arg_neg_I
    have hdeg : -(Real.pi / 2) * 180 / Real.pi = -90 := by
      rw [div_eq_iff hπne]
      ring
    have hval : LSM303DLHC.calculate_heading ⟨0, -1, 0⟩ = 270 := by
      simp only [LSM303DLHC.calculate_heading]
      rw [harg, hdeg]
      norm_num
    rw [hval]
    norm_num

/-- C3 evidence: the gyro half of the invariant fails on the program. At the
    concrete failing input — construction over a zeroed register file
    followed by set_scale Dps500 — the stored scale (whose sensitivity
    read_angular_rate uses) becomes Dps500, but the device's CTRL_REG4 still
    holds 0x00, whose range bits decode to Dps250: the conversion factor and
    the register have drifted apart, because the read-modify-write read the
    untouched zero buffer and its write frame of zero bytes never addressed
    CTRL_REG4. The compass half of the invariant does hold for every call
    sequence. -/
theorem c3_sensitivity_register_divergence :
    (L3GD20.set_scale (L3GD20.gyro_new (fun _ => 0) (fun _ => 0))
        L3GD20.FullScale.Dps500 (fun _ => 0)).scale = L3GD20.FullScale.Dps500
  ∧ (L3GD20.set_scale (L3GD20.gyro_new (fun _ => 0) (fun _ => 0))
        L3GD20.FullScale.Dps500 (fun _ => 0)).regs L3GD20.CTRL_REG4 = 0x00
  ∧ ¬ L3GD20.scaleRegisterConsistent
        (L3GD20.set_scale (L3GD20.gyro_new (fun _ => 0) (fun _ => 0))
          L3GD20.FullScale.Dps500 (fun _ => 0))
  ∧ (∀ (aregs0 mregs0 : Nat → Nat) (cops : List LSM303DLHC.CompassOp),
      LSM303DLHC.accelScaleRegisterConsistent
        (LSM303DLHC.compassRun (LSM303DLHC.compass_new aregs0 mregs0) cops)
      ∧ LSM303DLHC.magGainRegisterConsistent
        (LSM303DLHC.compassRun (LSM303DLHC.compass_new aregs0 mregs0) cops)) := by
  refine ⟨by decide, by decide,
    by unfold L3GD20.scaleRegisterConsistent; decide,
    fun aregs0 mregs0 cops => ?_⟩
  exact compass_inv_run (LSM303DLHC.compass_new aregs0 mregs0) cops
    (compass_inv_new aregs0 mregs0).1 (compass_inv_new aregs0 mregs0).2

/-- C6 evidence: the gyro setters never perform the claimed read-modify-write
    of their control register. For every driver state, scale, rate and device
    response, set_scale leaves the device's CTRL_REG4 byte exactly as it was
    and set_data_rate leaves CTRL_REG1 exactly as it was — the frame put on
    the wire by write_register is the constant pair of zero bytes,
    never carrying the register address or the modified value. The compass
    set_accel_scale, by contrast, really performs the claimed
    read-modify-write of CTRL_REG4_A with mask 0xCF. -/
theorem c6_gyro_rmw_never_reaches_register :
    (∀ (st : L3GD20.GyroState) (sc : L3GD20.FullScale) (rx : Nat → Nat),
      (L3GD20.set_scale st sc rx).regs L3GD20.CTRL_REG4
        = st.regs L3GD20.CTRL_REG4)
  ∧ (∀ (st : L3GD20.GyroState) (r : L3GD20.DataRate) (rx : Nat → Nat),
      (L3GD20.set_data_rate st r rx).regs L3GD20.CTRL_REG1
        = st.regs L3GD20.CTRL_REG1)
  ∧ (∀ (reg v : Nat) (rx : Nat → Nat),
      L3GD20.write_register reg v rx
        = [L3GD20.SpiEvent.csLow, L3GD20.SpiEvent.transfer [0, 0],
           L3GD20.SpiEvent.csHigh])
  ∧ (∀ (c : LSM303DLHC.CompassState) (asc : LSM303DLHC.AccelScale),
      (LSM303DLHC.set_accel_scale c asc).aregs LSM303DLHC.CTRL_REG4_A
        = (c.aregs LSM303DLHC.CTRL_REG4_A &&& 0xCF) ||| asc.code) := by
  refine ⟨?_, ?_, ?_, ?_⟩
  · intro st sc rx
    simp [L3GD20.set_scale, L3GD20.read_register, L3GD20.write_register,
      L3GD20.spiTransfer, L3GD20.frameOf, L3GD20.deviceFrame,
      L3GD20.deviceWriteRun, L3GD20.updateReg, L3GD20.CTRL_REG4]
  · intro st r rx
    simp [L3GD20.set_data_rate, L3GD20.read_register, L3GD20.write_register,
      L3GD20.spiTransfer, L3GD20.frameOf, L3GD20.deviceFrame,
      L3GD20.deviceWriteRun, L3GD20.updateReg, L3GD20.CTRL_REG1]
  · intro reg v rx
    rfl
  · intro c asc
    simp [LSM303DLHC.set_accel_scale, LSM303DLHC.accelWrite]

/-- C7 evidence: the burst transaction read_angular_rate actually performs
    is mis-framed: it puts a zero byte on the wire in its single address phase — the command byte
    OUT_X_L with the read flag sits in the receive slot and is discarded —
    so the transmitted address byte does not carry the read flag in its
    most-significant bit; and the six data phases transmit the driver's zero
    buffer while the device's bytes are discarded, so every axis decodes to
    zero no matter what the device sends. -/
theorem c7_gyro_burst_zero_frame_and_zero_decode (sc : L3GD20.FullScale)
    (rx : Nat → Nat) :
    (L3GD20.read_angular_rate sc rx).1
      = [L3GD20.SpiEvent.csLow, L3GD20.SpiEvent.transfer [0],
         L3GD20.SpiEvent.transfer [0, 0, 0, 0, 0, 0], L3GD20.SpiEvent.csHigh]
  ∧ Nat.testBit 0 7 = false
  ∧ Nat.testBit (L3GD20.OUT_X_L ||| 0x80) 7 = true
  ∧ (L3GD20.read_angular_rate sc rx).2.x = 0
  ∧ (L3GD20.read_angular_rate sc rx).2.y = 0
  ∧ (L3GD20.read_angular_rate sc rx).2.z = 0 := by
  refine ⟨rfl, rfl, rfl, ?_, ?_, ?_⟩ <;>
    · show ((L3GD20.i16FromLeBytesNat 0 0 : Int) : ℝ)
          * (L3GD20.FullScale.sensitivity sc / 1000) = 0
      norm_num [L3GD20.i16FromLeBytesNat]

/-- C8: after the gyro constructor returns, the device is still in its
    power-up state apart from the reserved register 0x00 — every chip-select
    window the constructor emits carries only zero bytes, which the device
    reads as a write of 0x00 to register 0x00 — so no power-on control value
    is ever written: CTRL_REG1 keeps its power-up byte, the device is powered
    down exactly when it powered up that way, and at the datasheet reset
    value (CTRL_REG1 = 0x07, power-down bit clear) it is powered down. -/
theorem c8_construction_leaves_device_powered_down (regs0 : Nat → Nat)
    (rx : Nat → Nat) :
    (L3GD20.gyro_new regs0 rx).regs = L3GD20.updateReg regs0 0x00 0x00
  ∧ (L3GD20.gyro_new regs0 rx).regs L3GD20.CTRL_REG1 = regs0 L3GD20.CTRL_REG1
  ∧ (L3GD20.poweredDown (L3GD20.gyro_new regs0 rx)
      ↔ Nat.testBit (regs0 L3GD20.CTRL_REG1) 3 = false)
  ∧ L3GD20.poweredDown (L3GD20.gyro_new L3GD20.l3gd20ResetRegs (fun _ => 0)) := by
  have step : (L3GD20.gyro_new regs0 rx).regs
      = L3GD20.updateReg (L3GD20.updateReg (L3GD20.updateReg (L3GD20.updateReg
          (L3GD20.updateReg (L3GD20.updateReg regs0 0 0) 0 0) 0 0) 0 0) 0 0) 0 0 := rfl
  have collapse : ∀ f : Nat → Nat,
      L3GD20.updateReg (L3GD20.updateReg f 0 0) 0 0 = L3GD20.updateReg f 0 0 := by
    intro f
    funext a
    by_cases h : a = 0 <;> simp [L3GD20.updateReg, h]
  have hregs : (L3GD20.gyro_new regs0 rx).regs = L3GD20.updateReg regs0 0x00 0x00 := by
    rw [step, collapse, collapse, collapse, collapse, collapse]
  refine ⟨hregs, ?_, ?_, ?_⟩
  · rw [hregs]
    simp [L3GD20.updateReg, L3GD20.CTRL_REG1]
  · unfold L3GD20.poweredDown
    rw [hregs]
    simp [L3GD20.updateReg, L3GD20.CTRL_REG1]
  · unfold L3GD20.poweredDown
    decide

/-- C10 evidence: read_burst clocks exactly min(buffer length, 6) data phases
    — the data-phase transfer transmits that many bytes — but writes nothing:
    the bytes clocked out are the buffer's own contents and the bytes clocked
    in are dropped with the internal dummy buffer, so the caller's buffer
    comes back entirely unchanged for every buffer and every device
    response. -/
theorem c10_read_burst_buffer_untouched (start_reg : Nat) (buf : List Nat)
    (rx : Nat → Nat) :
    (L3GD20.read_burst start_reg buf rx).2 = buf
  ∧ (L3GD20.read_burst start_reg buf rx).1
      = [L3GD20.SpiEvent.csLow, L3GD20.SpiEvent.transfer [0],
         L3GD20.SpiEvent.transfer (buf.take (min buf.length 6)),
         L3GD20.SpiEvent.csHigh]
  ∧ (buf.take (min buf.length 6)).length = min buf.length 6 := by
  refine ⟨rfl, rfl, ?_⟩
  simp
